import Mathlib

/-
Verification of the two CLI launchers in this repository
(claude-collab/scripts/claude_exec.py and dev-workflow/scripts/claude_exec.py).

The Python code is shallowly embedded: each function of interest becomes a
Lean definition over explicit data, and the filesystem and subprocess are
modelled as explicit values.  Python truthiness of optional strings, ints
and floats is modelled by the pyTruthy* helpers; argparse Namespace objects
become the ArgsCollab and ArgsDev structures.
-/

/-! ## Python truthiness helpers -/

/-- Truthiness of an optional Python string: None and the empty string are
falsy, every other string is truthy. -/
def pyTruthy : Option String → Bool
  | none => false
  | some s => !s.isEmpty

/-- Truthiness of an optional Python int: None and 0 are falsy. -/
def pyTruthyInt : Option Int → Bool
  | none => false
  | some i => decide (i ≠ 0)

/-- Truthiness of an optional Python float, modelled as a rational:
None and 0.0 are falsy. -/
def pyTruthyRat : Option Rat → Bool
  | none => false
  | some q => decide (q ≠ 0)

/-! ## Parsed argument records (argparse Namespace)

One structure per variant.  Optional flags that argparse defaults to None
are Option values; store_true flags are Bool. -/

/-- Namespace of the claude-collab variant: the prompt is a required
positional argument (always a string once parsing succeeds). -/
structure ArgsCollab where
  prompt : String
  session : Option String
  resume : Option String
  continue_session : Bool
  permission_mode : Option String
  dangerously_skip_permissions : Bool
  allowed_tools : Option String
  disallowed_tools : Option String
  model : Option String
  max_turns : Option Int
  max_budget : Option Rat
  output_format : Option String
  append_system_prompt : Option String
  add_dir : Option String
  mcp_config : Option String
deriving Repr

/-- Namespace of the dev-workflow variant: the prompt is optional
(nargs="?"), and the variant adds output and plan_file options. -/
structure ArgsDev where
  prompt : Option String
  session : Option String
  resume : Option String
  continue_session : Bool
  permission_mode : Option String
  dangerously_skip_permissions : Bool
  allowed_tools : Option String
  disallowed_tools : Option String
  model : Option String
  max_turns : Option Int
  max_budget : Option Rat
  output_format : Option String
  append_system_prompt : Option String
  add_dir : Option String
  mcp_config : Option String
  output : Option String
  plan_file : Option String
deriving Repr

/-! ## Command Builder segments

build_command in both files appends the same blocks in the same order;
each block below embeds one of those blocks.  The two variants differ only
in the tool-rule blocks and in the final prompt block. -/

/-- Environment check is_third_party_configured: true when either
ANTHROPIC_BASE_URL or ANTHROPIC_API_KEY is set to a truthy value.
The environment is modelled as a lookup function. -/
def isThirdPartyConfigured (env : String → Option String) : Bool :=
  pyTruthy (env "ANTHROPIC_BASE_URL") || pyTruthy (env "ANTHROPIC_API_KEY")

/-- Session block (identical in both variants):
if args.resume: add ["--resume", args.resume]
elif args.session: add ["--session-id", args.session]. -/
def sessionArgs (resume session : Option String) : List String :=
  if pyTruthy resume then ["--resume", resume.getD ""]
  else if pyTruthy session then ["--session-id", session.getD ""]
  else []

/-- Continue block: if args.continue_session: add ["--continue"]. -/
def continueArgs (c : Bool) : List String :=
  if c then ["--continue"] else []

/-- Permission block:
if args.dangerously_skip_permissions: add the skip flag
elif args.permission_mode: add ["--permission-mode", mode]. -/
def permissionArgs (skip : Bool) (mode : Option String) : List String :=
  if skip then ["--dangerously-skip-permissions"]
  else if pyTruthy mode then ["--permission-mode", mode.getD ""]
  else []

/-- Splitter for Python s.split(","): cut the character list at every
comma; the empty string yields one empty piece. -/
def splitCommaAux : List Char → List Char → List String
  | [], acc => [String.mk acc.reverse]
  | c :: rest, acc =>
    if c = ',' then String.mk acc.reverse :: splitCommaAux rest []
    else splitCommaAux rest (c :: acc)

/-- Python s.split(",") on a string. -/
def splitComma (s : String) : List String :=
  splitCommaAux s.data []

/-- Python s.strip(): drop whitespace from both ends. -/
def pyStrip (s : String) : String :=
  String.mk (((s.data.dropWhile Char.isWhitespace).reverse.dropWhile
    Char.isWhitespace).reverse)

/-- Allowed-tools block of the claude-collab variant: appends the flag and
then EXTENDS with each comma-separated rule stripped, as separate tokens. -/
def allowedToolsCollab (t : Option String) : List String :=
  if pyTruthy t then
    "--allowedTools" :: (splitComma (t.getD "")).map pyStrip
  else []

/-- Disallowed-tools block of the claude-collab variant (same splitting). -/
def disallowedToolsCollab (t : Option String) : List String :=
  if pyTruthy t then
    "--disallowedTools" :: (splitComma (t.getD "")).map pyStrip
  else []

/-- Allowed-tools block of the dev-workflow variant: the comma-separated
string is passed as one single value token. -/
def allowedToolsDev (t : Option String) : List String :=
  if pyTruthy t then ["--allowedTools", t.getD ""] else []

/-- Disallowed-tools block of the dev-workflow variant. -/
def disallowedToolsDev (t : Option String) : List String :=
  if pyTruthy t then ["--disallowedTools", t.getD ""] else []

/-- Model block (identical in both variants): emitted only when a model is
set and no third-party endpoint is configured in the environment. -/
def modelArgs (env : String → Option String) (m : Option String) : List String :=
  if pyTruthy m && !isThirdPartyConfigured env then ["--model", m.getD ""]
  else []

/-- Max-turns block: if args.max_turns: add ["--max-turns", str(n)].
Python str of an int is rendered with toString. -/
def maxTurnsArgs (n : Option Int) : List String :=
  if pyTruthyInt n then ["--max-turns", toString (n.getD 0)] else []

/-- Max-budget block: if args.max_budget: add ["--max-budget-usd", str(b)].
The float is modelled as a rational; the exact decimal rendering of
Python str(float) is immaterial to every claim, toString stands in. -/
def maxBudgetArgs (b : Option Rat) : List String :=
  if pyTruthyRat b then ["--max-budget-usd", toString (b.getD 0)] else []

/-- Output-format block. -/
def outputFormatArgs (f : Option String) : List String :=
  if pyTruthy f then ["--output-format", f.getD ""] else []

/-- Append-system-prompt block. -/
def appendSystemPromptArgs (t : Option String) : List String :=
  if pyTruthy t then ["--append-system-prompt", t.getD ""] else []

/-- Add-dir block (identical in both variants): the comma-separated list is
split and each stripped entry gets its own ["--add-dir", d] pair. -/
def addDirArgs (d : Option String) : List String :=
  if pyTruthy d then
    ((splitComma (d.getD "")).map (fun x => ["--add-dir", pyStrip x])).flatten
  else []

/-- Mcp-config block. -/
def mcpConfigArgs (p : Option String) : List String :=
  if pyTruthy p then ["--mcp-config", p.getD ""] else []

/-- Everything build_command of the claude-collab variant appends after the
session block, ending with the bare prompt (no end-of-options marker). -/
def afterSessionCollab (env : String → Option String) (a : ArgsCollab) : List String :=
  continueArgs a.continue_session
  ++ permissionArgs a.dangerously_skip_permissions a.permission_mode
  ++ allowedToolsCollab a.allowed_tools
  ++ disallowedToolsCollab a.disallowed_tools
  ++ modelArgs env a.model
  ++ maxTurnsArgs a.max_turns
  ++ maxBudgetArgs a.max_budget
  ++ outputFormatArgs a.output_format
  ++ appendSystemPromptArgs a.append_system_prompt
  ++ addDirArgs a.add_dir
  ++ mcpConfigArgs a.mcp_config
  ++ [a.prompt]

/-- build_command of the claude-collab variant. -/
def buildCommandCollab (env : String → Option String) (a : ArgsCollab) : List String :=
  ["claude", "-p"] ++ sessionArgs a.resume a.session ++ afterSessionCollab env a

/-- Everything build_command of the dev-workflow variant appends after the
session block, ending with the end-of-options marker and the prompt.
build_command is only reached once main has resolved a truthy prompt,
so the None default is read with getD. -/
def afterSessionDev (env : String → Option String) (a : ArgsDev) : List String :=
  continueArgs a.continue_session
  ++ permissionArgs a.dangerously_skip_permissions a.permission_mode
  ++ allowedToolsDev a.allowed_tools
  ++ disallowedToolsDev a.disallowed_tools
  ++ modelArgs env a.model
  ++ maxTurnsArgs a.max_turns
  ++ maxBudgetArgs a.max_budget
  ++ outputFormatArgs a.output_format
  ++ appendSystemPromptArgs a.append_system_prompt
  ++ addDirArgs a.add_dir
  ++ mcpConfigArgs a.mcp_config
  ++ ["--", a.prompt.getD ""]

/-- build_command of the dev-workflow variant. -/
def buildCommandDev (env : String → Option String) (a : ArgsDev) : List String :=
  ["claude", "-p"] ++ sessionArgs a.resume a.session ++ afterSessionDev env a

/-! ## Atomic JSON writer (dev-workflow variant only)

atomic_write_json writes to a fresh temporary file in the target directory
and renames it onto the target.  Only the target file and the temporary
file of one call are relevant, so the filesystem state is their contents.
Serialization (json.dump plus a trailing newline) is any deterministic
function of the record; the writer is generic in it, exactly as the Python
function is generic in the dict it is given. -/

/-- Contents of the target path and of the writer-owned temporary file;
none means the file does not exist. -/
structure WriterState where
  target : Option String
  tmp : Option String
deriving Repr, DecidableEq

/-- Result of one atomic_write_json call: either a normal return or an
exception propagated to the caller, in both cases with the resulting
filesystem state. -/
inductive WriteResult
  | ok (s : WriterState)
  | raised (s : WriterState)
deriving Repr, DecidableEq

/-- atomic_write_json path data: mkstemp creates the temporary file, then
json.dump(data) plus a newline is written and the file is renamed onto the
target with os.replace.  failDuringWrite models an exception raised by
fdopen, json.dump or f.write, i.e. after the temporary file exists and
before the rename; the except-BaseException handler then unlinks the
temporary file and re-raises. -/
def atomicWriteJson {α : Type} (dump : α → String) (data : α)
    (failDuringWrite : Bool) (s : WriterState) : WriteResult :=
  let afterMkstemp : WriterState := { target := s.target, tmp := some "" }
  if failDuringWrite then
    WriteResult.raised { target := afterMkstemp.target, tmp := none }
  else
    WriteResult.ok { target := some (dump data ++ "\n"), tmp := none }

/-- The filesystem state after a call, whether it returned or raised. -/
def stateAfter : WriteResult → WriterState
  | WriteResult.ok s => s
  | WriteResult.raised s => s

/-! ## Process runner models

A subprocess.run invocation either finishes with an exit code and captured
text streams, or raises TimeoutExpired, or raises FileNotFoundError. -/

/-- Outcome of subprocess.run as observed by the launcher. -/
inductive RunResult
  | finished (returncode : Int) (stdoutText stderrText : String)
  | timedOut
  | notFound
deriving Repr, DecidableEq

/-- A JSON scalar as used in the task records (strings and ints only). -/
inductive JVal
  | s (v : String)
  | i (v : Int)
deriving Repr, DecidableEq

/-- Lookup of a key in a JSON object, modelled as an ordered key-value list
exactly as Python dict insertion order. -/
def field (r : List (String × JVal)) (k : String) : Option JVal :=
  (r.find? (fun p => p.1 == k)).map (fun p => p.2)

/-- session_id = args.resume or args.session or None. -/
def sessionIdOf (resume session : Option String) : Option String :=
  if pyTruthy resume then resume
  else if pyTruthy session then session
  else none

/-- The timeout error message of the task-file runner
(f-string over args.timeout). -/
def timeoutErrorMsg (timeoutSecs : Int) : String :=
  "Claude Code did not respond within " ++ toString timeoutSecs ++ "s"

/-- The not-found error message of the task-file runner. -/
def notFoundErrorMsg : String :=
  "\x27claude\x27 command not found"

/-- What one run of the task-file runner leaves behind: the final task
record it writes, the lines it prints to stdout, and its exit code. -/
structure TaskOutcome where
  finalRecord : List (String × JVal)
  printed : List String
  exitCode : Int
deriving Repr, DecidableEq

/-- _run_with_output_file, phases 2 and 3: run the child, then finalize the
task record and print the output path.  outputPath stands for
os.path.abspath(args.output); completedAt for the strftime timestamp.
The timeout and not-found handlers end in sys.exit(124) and sys.exit(127);
the normal-completion path ends at print(output_path) with NO sys.exit, so
the function returns, main returns, and the interpreter ends with status 0
whatever the child returncode was (the child code is only recorded in the
exit_code field of the task record). -/
def runWithOutputFile (outputPath : String) (timeoutSecs : Int)
    (resume session : Option String) (res : RunResult)
    (completedAt : String) : TaskOutcome :=
  let sessionId := sessionIdOf resume session
  match res with
  | RunResult.timedOut =>
    { finalRecord := [("status", JVal.s "timeout"),
        ("error", JVal.s (timeoutErrorMsg timeoutSecs)),
        ("exit_code", JVal.i 124),
        ("completed_at", JVal.s completedAt)],
      printed := [outputPath], exitCode := 124 }
  | RunResult.notFound =>
    { finalRecord := [("status", JVal.s "error"),
        ("error", JVal.s notFoundErrorMsg),
        ("exit_code", JVal.i 127),
        ("completed_at", JVal.s completedAt)],
      printed := [outputPath], exitCode := 127 }
  | RunResult.finished rc out err =>
    let status := if rc = 0 then "completed" else "error"
    let base := [("status", JVal.s status),
        ("output", JVal.s out),
        ("exit_code", JVal.i rc),
        ("completed_at", JVal.s completedAt)]
    let withErr := base ++ (if err = "" then [] else [("error", JVal.s err)])
    let final := withErr ++
        (if pyTruthy sessionId then [("session_id", JVal.s (sessionId.getD ""))] else [])
    { finalRecord := final, printed := [outputPath], exitCode := 0 }

/-- What a direct-mode run leaves behind: relayed stdout, relayed stderr,
and the exit code of the launcher. -/
structure DirectOutcome where
  stdoutText : String
  stderrText : String
  exitCode : Int
deriving Repr, DecidableEq

/-- _run_direct of the dev-workflow variant, identical to the run block of
main in the claude-collab variant: relay the captured streams and the
child exit code, or report timeout (124) or command-not-found (127) to
stderr.  print to stderr appends a newline. -/
def runDirect (timeoutSecs : Int) (res : RunResult) : DirectOutcome :=
  match res with
  | RunResult.timedOut =>
    { stdoutText := "",
      stderrText := "ERROR: Claude Code did not respond within "
        ++ toString timeoutSecs
        ++ "s. Consider increasing --timeout for complex tasks.\n",
      exitCode := 124 }
  | RunResult.notFound =>
    { stdoutText := "",
      stderrText := "ERROR: \x27claude\x27 command not found. "
        ++ "Install Claude Code CLI: npm install -g @anthropic-ai/claude-code\n",
      exitCode := 127 }
  | RunResult.finished rc out err =>
    { stdoutText := out, stderrText := err, exitCode := rc }

/-! ## main of the two variants, up to the point a child process starts -/

/-- Result of the open-and-read of a plan file. -/
inductive ReadResult
  | ok (content : String)
  | fileNotFound
  | osError (msg : String)
deriving Repr, DecidableEq

/-- What main does before any child process could start: either stop with a
message on stderr and an exit code (no subprocess), or launch the built
command. -/
inductive MainOutcome
  | configError (stderrText : String) (exitCode : Int)
  | launch (cmd : List String)
deriving Repr, DecidableEq

/-- The message passed to the argparse error call when the prompt is
missing in the dev-workflow variant.  argparse ArgumentParser.error prints
the usage line plus this message to stderr and exits with status 2. -/
def missingPromptMsg : String :=
  "prompt is required (provide as argument or via --plan-file)"

/-- main of the dev-workflow variant after parsing: resolve the prompt from
--plan-file when given, reject a falsy prompt through the argparse error
exit (status 2), otherwise launch build_command.  read models open(path)
followed by f.read() on the plan file. -/
def mainDev (env : String → Option String) (read : String → ReadResult)
    (a : ArgsDev) : MainOutcome :=
  if pyTruthy a.plan_file then
    match read (a.plan_file.getD "") with
    | ReadResult.fileNotFound =>
      MainOutcome.configError
        ("ERROR: Plan file not found: " ++ a.plan_file.getD "") 1
    | ReadResult.osError m =>
      MainOutcome.configError ("ERROR: Cannot read plan file: " ++ m) 1
    | ReadResult.ok c =>
      let a2 : ArgsDev := { a with prompt := some c }
      if pyTruthy a2.prompt then MainOutcome.launch (buildCommandDev env a2)
      else MainOutcome.configError missingPromptMsg 2
  else
    if pyTruthy a.prompt then MainOutcome.launch (buildCommandDev env a)
    else MainOutcome.configError missingPromptMsg 2

/-- main of the claude-collab variant after parsing: no prompt or plan-file
validation exists there, the built command is always launched. -/
def mainCollab (env : String → Option String) (a : ArgsCollab) : MainOutcome :=
  MainOutcome.launch (buildCommandCollab env a)

/-! ## Concrete inputs used by witnesses and counterexamples -/

/-- An environment with no variables set. -/
def envEmpty : String → Option String := fun _ => none

/-- A plan-file reader for which every path is missing. -/
def readNone : String → ReadResult := fun _ => ReadResult.fileNotFound

/-- claude-collab arguments with only the positional prompt given. -/
def argsCollabBase : ArgsCollab :=
  { prompt := "p", session := none, resume := none, continue_session := false,
    permission_mode := none, dangerously_skip_permissions := false,
    allowed_tools := none, disallowed_tools := none, model := none,
    max_turns := none, max_budget := none, output_format := none,
    append_system_prompt := none, add_dir := none, mcp_config := none }

/-- dev-workflow arguments with only the positional prompt given. -/
def argsDevBase : ArgsDev :=
  { prompt := some "p", session := none, resume := none, continue_session := false,
    permission_mode := none, dangerously_skip_permissions := false,
    allowed_tools := none, disallowed_tools := none, model := none,
    max_turns := none, max_budget := none, output_format := none,
    append_system_prompt := none, add_dir := none, mcp_config := none,
    output := none, plan_file := none }

/-! ## Shared helper lemmas -/

/-- A non-empty optional string is Python-truthy. -/
theorem pyTruthy_some_ne {s : String} (h : s ≠ "") : pyTruthy (some s) = true := by
  cases hse : s.isEmpty with
  | false => simp [pyTruthy, hse]
  | true => exact absurd ((String.isEmpty_iff s).mp hse) h

/-- A Python-truthy optional string reads back as a non-empty string. -/
theorem pyTruthy_getD_ne {o : Option String} (h : pyTruthy o = true) :
    o.getD "" ≠ "" := by
  cases o with
  | none => simp [pyTruthy] at h
  | some s =>
    simp only [Option.getD_some]
    intro he
    subst he
    exact absurd h (by decide)

/-- The dev-workflow command always ends with the end-of-options marker
followed by the prompt. -/
theorem buildCommandDev_marker (env : String → Option String) (a : ArgsDev) :
    ∃ u, buildCommandDev env a = u ++ ["--", a.prompt.getD ""] := by
  refine ⟨["claude", "-p"] ++ sessionArgs a.resume a.session
    ++ continueArgs a.continue_session
    ++ permissionArgs a.dangerously_skip_permissions a.permission_mode
    ++ allowedToolsDev a.allowed_tools
    ++ disallowedToolsDev a.disallowed_tools
    ++ modelArgs env a.model
    ++ maxTurnsArgs a.max_turns
    ++ maxBudgetArgs a.max_budget
    ++ outputFormatArgs a.output_format
    ++ appendSystemPromptArgs a.append_system_prompt
    ++ addDirArgs a.add_dir
    ++ mcpConfigArgs a.mcp_config, ?_⟩
  simp [buildCommandDev, afterSessionDev, List.append_assoc]

/-- The claude-collab command always ends with the bare prompt. -/
theorem buildCommandCollab_prompt_last (env : String → Option String) (a : ArgsCollab) :
    ∃ u, buildCommandCollab env a = u ++ [a.prompt] := by
  refine ⟨["claude", "-p"] ++ sessionArgs a.resume a.session
    ++ continueArgs a.continue_session
    ++ permissionArgs a.dangerously_skip_permissions a.permission_mode
    ++ allowedToolsCollab a.allowed_tools
    ++ disallowedToolsCollab a.disallowed_tools
    ++ modelArgs env a.model
    ++ maxTurnsArgs a.max_turns
    ++ maxBudgetArgs a.max_budget
    ++ outputFormatArgs a.output_format
    ++ appendSystemPromptArgs a.append_system_prompt
    ++ addDirArgs a.add_dir
    ++ mcpConfigArgs a.mcp_config, ?_⟩
  simp [buildCommandCollab, afterSessionCollab, List.append_assoc]

/-! ## Claims -/

/-- Claim C1: if atomic_write_json raises after the temporary file is
created and before the rename, the target path content is unchanged and
the temporary file is deleted before the failure propagates. -/
theorem atomic_write_failure_preserves_target {α : Type} (dump : α → String)
    (data : α) (s : WriterState) :
    (stateAfter (atomicWriteJson dump data true s)).target = s.target
    ∧ (stateAfter (atomicWriteJson dump data true s)).tmp = none
    ∧ (∃ s2, atomicWriteJson dump data true s = WriteResult.raised s2) :=
  ⟨rfl, rfl, ⟨_, rfl⟩⟩

/-- Claim C9: writing the same record twice in succession leaves the
target file exactly as one successful write leaves it. -/
theorem atomic_write_idempotent {α : Type} (dump : α → String) (data : α)
    (s : WriterState) :
    stateAfter (atomicWriteJson dump data false
        (stateAfter (atomicWriteJson dump data false s)))
      = stateAfter (atomicWriteJson dump data false s)
    ∧ (stateAfter (atomicWriteJson dump data false s)).target
      = some (dump data ++ "\n") :=
  ⟨rfl, rfl⟩

/-- Claim C6: the session block of build_command in both variants emits at
most one of the resume and session-id directives, and the resume id wins
whenever it is truthy. -/
theorem session_directives_exclusive (env : String → Option String)
    (aD : ArgsDev) (aC : ArgsCollab) (r s : Option String) :
    buildCommandDev env aD
      = ["claude", "-p"] ++ sessionArgs aD.resume aD.session ++ afterSessionDev env aD
    ∧ buildCommandCollab env aC
      = ["claude", "-p"] ++ sessionArgs aC.resume aC.session ++ afterSessionCollab env aC
    ∧ (sessionArgs r s = []
        ∨ (∃ x, sessionArgs r s = ["--resume", x])
        ∨ (∃ x, sessionArgs r s = ["--session-id", x]))
    ∧ (pyTruthy r = true → sessionArgs r s = ["--resume", r.getD ""]) := by
  refine ⟨rfl, rfl, ?_, ?_⟩
  · by_cases hr : pyTruthy r
    · exact Or.inr (Or.inl ⟨r.getD "", by simp [sessionArgs, hr]⟩)
    · by_cases hs : pyTruthy s
      · exact Or.inr (Or.inr ⟨s.getD "", by simp [sessionArgs, hr, hs]⟩)
      · exact Or.inl (by simp [sessionArgs, hr, hs])
  · intro hr
    simp [sessionArgs, hr]

/-- Witness for claim C6 at concrete ids: with both a resume id and a new
session id set, only the resume directive is emitted. -/
theorem session_directives_exclusive_witness :
    sessionArgs (some "abc") (some "xyz") = ["--resume", "abc"] :=
  (session_directives_exclusive envEmpty argsDevBase argsCollabBase
    (some "abc") (some "xyz")).2.2.2 (by decide)

/-- Claim C10: a max-turns of 0 or a max-budget of 0.0 is dropped by both
variants of build_command, exactly as if the limit had not been given. -/
theorem zero_limits_dropped (env : String → Option String)
    (aD : ArgsDev) (aC : ArgsCollab) :
    buildCommandDev env { aD with max_turns := some 0 }
      = buildCommandDev env { aD with max_turns := none }
    ∧ buildCommandDev env { aD with max_budget := some 0 }
      = buildCommandDev env { aD with max_budget := none }
    ∧ buildCommandCollab env { aC with max_turns := some 0 }
      = buildCommandCollab env { aC with max_turns := none }
    ∧ buildCommandCollab env { aC with max_budget := some 0 }
      = buildCommandCollab env { aC with max_budget := none }
    ∧ maxTurnsArgs (some 0) = []
    ∧ maxBudgetArgs (some 0) = [] :=
  ⟨rfl, rfl, rfl, rfl, rfl, rfl⟩

/-- Claim C2 counterexample: the claude-collab build_command splits a
comma-separated allowed-tools string into separate argv entries, so the
rule string is not passed as a single token in that variant. -/
theorem tool_rules_split_counterexample :
    buildCommandCollab envEmpty { argsCollabBase with allowed_tools := some "Read,Edit" }
      = ["claude", "-p", "--allowedTools", "Read", "Edit", "p"]
    ∧ ¬ ("Read,Edit"
        ∈ buildCommandCollab envEmpty { argsCollabBase with allowed_tools := some "Read,Edit" }) :=
  ⟨rfl, by decide⟩

/-- Claim C2 (amended): the dev-workflow build_command passes a non-empty
tool-rule string, commas and all, as one single argv token placed
immediately after its flag; the claude-collab variant splits instead. -/
theorem tool_rules_single_token_dev (env : String → Option String) (a : ArgsDev)
    (sAll sDis : String) :
    (a.allowed_tools = some sAll → sAll ≠ "" →
      ∃ u v, buildCommandDev env a = u ++ ["--allowedTools", sAll] ++ v)
    ∧ (a.disallowed_tools = some sDis → sDis ≠ "" →
      ∃ u v, buildCommandDev env a = u ++ ["--disallowedTools", sDis] ++ v) := by
  constructor
  · intro h hne
    refine ⟨["claude", "-p"] ++ sessionArgs a.resume a.session
      ++ continueArgs a.continue_session
      ++ permissionArgs a.dangerously_skip_permissions a.permission_mode,
      disallowedToolsDev a.disallowed_tools
      ++ modelArgs env a.model
      ++ maxTurnsArgs a.max_turns
      ++ maxBudgetArgs a.max_budget
      ++ outputFormatArgs a.output_format
      ++ appendSystemPromptArgs a.append_system_prompt
      ++ addDirArgs a.add_dir
      ++ mcpConfigArgs a.mcp_config
      ++ ["--", a.prompt.getD ""], ?_⟩
    simp [buildCommandDev, afterSessionDev, allowedToolsDev, h,
      pyTruthy_some_ne hne, List.append_assoc]
  · intro h hne
    refine ⟨["claude", "-p"] ++ sessionArgs a.resume a.session
      ++ continueArgs a.continue_session
      ++ permissionArgs a.dangerously_skip_permissions a.permission_mode
      ++ allowedToolsDev a.allowed_tools,
      modelArgs env a.model
      ++ maxTurnsArgs a.max_turns
      ++ maxBudgetArgs a.max_budget
      ++ outputFormatArgs a.output_format
      ++ appendSystemPromptArgs a.append_system_prompt
      ++ addDirArgs a.add_dir
      ++ mcpConfigArgs a.mcp_config
      ++ ["--", a.prompt.getD ""], ?_⟩
    simp [buildCommandDev, afterSessionDev, disallowedToolsDev, h,
      pyTruthy_some_ne hne, List.append_assoc]

/-- Witness for the amended claim C2 at a concrete comma-separated rule
string of the dev-workflow variant. -/
theorem tool_rules_single_token_dev_witness :
    ∃ u v, buildCommandDev envEmpty
        { argsDevBase with allowed_tools := some "Read,Edit(src/**)" }
      = u ++ ["--allowedTools", "Read,Edit(src/**)"] ++ v :=
  (tool_rules_single_token_dev envEmpty
    { argsDevBase with allowed_tools := some "Read,Edit(src/**)" }
    "Read,Edit(src/**)" "x").1 rfl (by decide)

/-- Claim C3 counterexample: the claude-collab build_command appends the
prompt without any end-of-options marker; no "--" token appears at all. -/
theorem no_marker_collab_counterexample :
    buildCommandCollab envEmpty argsCollabBase = ["claude", "-p", "p"]
    ∧ ¬ ("--" ∈ buildCommandCollab envEmpty argsCollabBase) :=
  ⟨rfl, by decide⟩

/-- Claim C3 (amended): both variants place the prompt as the final argv
token; only the dev-workflow variant precedes it immediately with the
end-of-options marker "--". -/
theorem prompt_final_token (env : String → Option String)
    (aD : ArgsDev) (aC : ArgsCollab) :
    (∃ u, buildCommandDev env aD = u ++ ["--", aD.prompt.getD ""])
    ∧ (∃ v, buildCommandCollab env aC = v ++ [aC.prompt]) :=
  ⟨buildCommandDev_marker env aD, buildCommandCollab_prompt_last env aC⟩

/-- Claim C4 counterexample: in task-file mode a child that exits with
code 3 still leaves the launcher exiting with status 0, because the
normal-completion path of _run_with_output_file never calls sys.exit; the
claimed "exits with the child exit code" is false of the program. -/
theorem taskfile_exit_zero_counterexample :
    (runWithOutputFile "/tmp/task.json" 600 none none
        (RunResult.finished 3 "out" "") "ts").exitCode = 0
    ∧ (runWithOutputFile "/tmp/task.json" 600 none none
        (RunResult.finished 3 "out" "") "ts").exitCode ≠ 3 :=
  ⟨rfl, by decide⟩

/-- Claim C4 (amended): in task-file mode, when the child exits, the final
record has status completed (exit code 0) or error (nonzero), carries the
captured stdout, the child exit code and a completion timestamp, carries
stderr as the error field only when non-empty, and the launcher prints
only the task file path and then exits with status 0 regardless of the
child exit code (only the record carries that code). -/
theorem taskfile_finalize_on_exit (path ts : String) (t : Int)
    (r s : Option String) (rc : Int) (out err : String) :
    field (runWithOutputFile path t r s (RunResult.finished rc out err) ts).finalRecord "status"
      = some (JVal.s (if rc = 0 then "completed" else "error"))
    ∧ field (runWithOutputFile path t r s (RunResult.finished rc out err) ts).finalRecord "output"
      = some (JVal.s out)
    ∧ field (runWithOutputFile path t r s (RunResult.finished rc out err) ts).finalRecord "exit_code"
      = some (JVal.i rc)
    ∧ field (runWithOutputFile path t r s (RunResult.finished rc out err) ts).finalRecord "completed_at"
      = some (JVal.s ts)
    ∧ field (runWithOutputFile path t r s (RunResult.finished rc out err) ts).finalRecord "error"
      = (if err = "" then none else some (JVal.s err))
    ∧ (runWithOutputFile path t r s (RunResult.finished rc out err) ts).printed = [path]
    ∧ (runWithOutputFile path t r s (RunResult.finished rc out err) ts).exitCode = 0 := by
  refine ⟨?_, ?_, ?_, ?_, ?_, ?_, ?_⟩ <;>
  · by_cases h0 : rc = 0 <;> by_cases herr : err = "" <;>
    by_cases hsid : pyTruthy (sessionIdOf r s) <;>
    simp [runWithOutputFile, field, h0, herr, hsid]

/-- Claim C5: timeout exits 124 and tool-not-found exits 127; in task-file
mode the record carries the matching status, exit code, error message and
completion timestamp, and in direct mode a descriptive message goes to
stderr. -/
theorem timeout_notfound_exit_codes (path ts : String) (t : Int)
    (r s : Option String) :
    field (runWithOutputFile path t r s RunResult.timedOut ts).finalRecord "status"
      = some (JVal.s "timeout")
    ∧ field (runWithOutputFile path t r s RunResult.timedOut ts).finalRecord "exit_code"
      = some (JVal.i 124)
    ∧ field (runWithOutputFile path t r s RunResult.timedOut ts).finalRecord "error"
      = some (JVal.s (timeoutErrorMsg t))
    ∧ timeoutErrorMsg t ≠ ""
    ∧ field (runWithOutputFile path t r s RunResult.timedOut ts).finalRecord "completed_at"
      = some (JVal.s ts)
    ∧ (runWithOutputFile path t r s RunResult.timedOut ts).exitCode = 124
    ∧ (runWithOutputFile path t r s RunResult.timedOut ts).printed = [path]
    ∧ field (runWithOutputFile path t r s RunResult.notFound ts).finalRecord "status"
      = some (JVal.s "error")
    ∧ field (runWithOutputFile path t r s RunResult.notFound ts).finalRecord "exit_code"
      = some (JVal.i 127)
    ∧ field (runWithOutputFile path t r s RunResult.notFound ts).finalRecord "error"
      = some (JVal.s notFoundErrorMsg)
    ∧ notFoundErrorMsg ≠ ""
    ∧ field (runWithOutputFile path t r s RunResult.notFound ts).finalRecord "completed_at"
      = some (JVal.s ts)
    ∧ (runWithOutputFile path t r s RunResult.notFound ts).exitCode = 127
    ∧ (runWithOutputFile path t r s RunResult.notFound ts).printed = [path]
    ∧ (runDirect t RunResult.timedOut).exitCode = 124
    ∧ (runDirect t RunResult.timedOut).stderrText ≠ ""
    ∧ (runDirect t RunResult.notFound).exitCode = 127
    ∧ (runDirect t RunResult.notFound).stderrText ≠ "" := by
  refine ⟨rfl, rfl, rfl, ?_, rfl, rfl, rfl, rfl, rfl, rfl, by decide, rfl, rfl, rfl,
    rfl, ?_, rfl, ?_⟩
  · intro h
    have h2 := congrArg String.length h
    simp [timeoutErrorMsg, String.length_append] at h2
    exact absurd h2.1.1 (by decide)
  · intro h
    have h2 := congrArg String.length h
    simp [runDirect, String.length_append] at h2
    exact absurd h2.1.1 (by decide)
  · intro h
    have h2 := congrArg String.length h
    simp [runDirect, String.length_append] at h2
    exact absurd h2 (by decide)

/-- Claim C7 counterexample: a missing prompt (no positional prompt and no
plan file) is rejected through the argparse error path, which exits with
status 2, not 1. -/
theorem missing_prompt_exit_counterexample :
    mainDev envEmpty readNone { argsDevBase with prompt := none }
      = MainOutcome.configError missingPromptMsg 2
    ∧ (2 : Int) ≠ 1 :=
  ⟨rfl, by decide⟩

/-- Claim C7 (amended): configuration errors stop the dev-workflow launcher
before any subprocess: a missing or unreadable plan file is reported on
stderr with exit code 1, and a missing prompt is reported through the
argparse error path with exit code 2. -/
theorem config_errors_no_launch (env : String → Option String)
    (read : String → ReadResult) (a : ArgsDev) :
    (pyTruthy a.plan_file = true →
      read (a.plan_file.getD "") = ReadResult.fileNotFound →
      mainDev env read a
        = MainOutcome.configError
            ("ERROR: Plan file not found: " ++ a.plan_file.getD "") 1)
    ∧ (∀ m, pyTruthy a.plan_file = true →
      read (a.plan_file.getD "") = ReadResult.osError m →
      mainDev env read a
        = MainOutcome.configError ("ERROR: Cannot read plan file: " ++ m) 1)
    ∧ (pyTruthy a.plan_file = false → pyTruthy a.prompt = false →
      mainDev env read a = MainOutcome.configError missingPromptMsg 2) := by
  refine ⟨?_, ?_, ?_⟩
  · intro h1 h2
    simp [mainDev, h1, h2]
  · intro m h1 h2
    simp [mainDev, h1, h2]
  · intro h1 h2
    simp [mainDev, h1, h2]

/-- Witness for the amended claim C7: all three configuration-error paths
at concrete inputs. -/
theorem config_errors_no_launch_witness :
    mainDev envEmpty readNone { argsDevBase with plan_file := some "plan.md" }
      = MainOutcome.configError ("ERROR: Plan file not found: " ++ "plan.md") 1
    ∧ mainDev envEmpty (fun _ => ReadResult.osError "Permission denied")
        { argsDevBase with plan_file := some "plan.md" }
      = MainOutcome.configError ("ERROR: Cannot read plan file: " ++ "Permission denied") 1
    ∧ mainDev envEmpty readNone { argsDevBase with prompt := none }
      = MainOutcome.configError missingPromptMsg 2 :=
  ⟨(config_errors_no_launch envEmpty readNone
      { argsDevBase with plan_file := some "plan.md" }).1 (by decide) rfl,
   (config_errors_no_launch envEmpty (fun _ => ReadResult.osError "Permission denied")
      { argsDevBase with plan_file := some "plan.md" }).2.1 "Permission denied" (by decide) rfl,
   (config_errors_no_launch envEmpty readNone
      { argsDevBase with prompt := none }).2.2 (by decide) (by decide)⟩

/-- Claim C8 counterexample: the claude-collab variant accepts the empty
string as its required positional prompt and still launches, with the
empty prompt as the final argv token. -/
theorem empty_prompt_launch_counterexample :
    mainCollab envEmpty { argsCollabBase with prompt := "" }
      = MainOutcome.launch ["claude", "-p", ""]
    ∧ (["claude", "-p", ""] : List String).getLast? = some "" :=
  ⟨rfl, rfl⟩

/-- Claim C8 (amended): in the dev-workflow variant every launched command
ends with a non-empty prompt after the end-of-options marker; the
claude-collab variant only guarantees the prompt argument is present. -/
theorem launch_prompt_nonempty_dev (env : String → Option String)
    (read : String → ReadResult) (a : ArgsDev) (cmd : List String)
    (h : mainDev env read a = MainOutcome.launch cmd) :
    ∃ p u, cmd = u ++ ["--", p] ∧ p ≠ "" := by
  by_cases hp : pyTruthy a.plan_file
  · cases hr : read (a.plan_file.getD "") with
    | ok c =>
      by_cases hc : pyTruthy (some c)
      · simp [mainDev, hp, hr, hc] at h
        obtain ⟨u, hu⟩ := buildCommandDev_marker env { a with prompt := some c }
        refine ⟨c, u, ?_, ?_⟩
        · rw [← h]
          simpa using hu
        · simpa using pyTruthy_getD_ne hc
      · simp [mainDev, hp, hr, hc] at h
    | fileNotFound => simp [mainDev, hp, hr] at h
    | osError m => simp [mainDev, hp, hr] at h
  · by_cases hq : pyTruthy a.prompt
    · simp [mainDev, hp, hq] at h
      obtain ⟨u, hu⟩ := buildCommandDev_marker env a
      refine ⟨a.prompt.getD "", u, ?_, pyTruthy_getD_ne hq⟩
      rw [← h]
      exact hu
    · simp [mainDev, hp, hq] at h

/-- Witness for the amended claim C8: a concrete launch of the dev-workflow
variant ends in the marker and a non-empty prompt. -/
theorem launch_prompt_nonempty_dev_witness :
    ∃ p u, (["claude", "-p", "--", "hi"] : List String) = u ++ ["--", p] ∧ p ≠ "" :=
  launch_prompt_nonempty_dev envEmpty readNone
    { argsDevBase with prompt := some "hi" } ["claude", "-p", "--", "hi"] rfl
